import Mathlib

/-!
Shallow embedding of the symptom aggregation and risk-scoring core of the
endometriosis-prediction service (`predict_api.py`, `predict_user_input.py`).

Python dictionaries with string keys are modelled as association lists
`List (String × ℚ)`; Python floats are modelled as exact rationals; Python's
`round(x, 4)` is modelled as round-half-even at 4 decimal places on ℚ.
`pydantic` input validation (`SymptomInput`, fields constrained to `[0, 1]`
with default `0`) is modelled by `symptomInput`; fallible paths return
`Except String _`.
-/

namespace Endo

/-- A Python dict from symptom-key strings to float values. -/
abbrev Dict := List (String × ℚ)

/-- Python `d.get(k, dflt)`. -/
def get (d : Dict) (k : String) (dflt : ℚ) : ℚ :=
  (List.lookup k d).getD dflt

/-- The value the pydantic model assigns to field `k`: the provided value,
or the declared default `0` when the key is absent. -/
def fieldVal (raw : Dict) (k : String) : ℚ :=
  (List.lookup k raw).getD 0

/-- The closed 27-key symptom schema, in source order
(`symptom_keys` in `predict_api.py`, also the field order of `SymptomInput`). -/
def symptom_keys : List String :=
  ["Irregular_Missed_periods", "Cramping", "Menstrual_clots",
   "Infertility", "Pain_Chronic_pain", "Diarrhea",
   "Long_menstruation", "Vomiting_constant_vomiting",
   "Migraines", "Extreme_Bloating", "Leg_pain", "Depression",
   "Fertility_Issues", "Ovarian_cysts", "Painful_urination",
   "Pain_after_Intercourse", "Digestive_GI_problems",
   "Anaemia_Iron_deficiency", "Hip_pain", "Vaginal_Pain_Pressure",
   "Cysts_unspecified", "Abnormal_uterine_bleeding",
   "Hormonal_problems", "Feeling_sick",
   "Abdominal_Cramps_during_Intercourse", "Insomnia_Sleeplessness",
   "Loss_of_appetite"]

/-- `high_risk_symptoms` in `generate_prediction`. -/
def high_risk_symptoms : List String :=
  ["Pain_Chronic_pain", "Cramping", "Pain_after_Intercourse",
   "Ovarian_cysts", "Extreme_Bloating", "Infertility"]

/-- `moderate_risk_symptoms` in `generate_prediction`. -/
def moderate_risk_symptoms : List String :=
  ["Irregular_Missed_periods", "Menstrual_clots", "Migraines",
   "Depression", "Digestive_GI_problems", "Painful_urination"]

/-- Round-half-even to the nearest integer (Python's `round` tie behaviour). -/
def roundHalfEven (x : ℚ) : ℤ :=
  if x - x.floor < 1/2 then x.floor
  else if 1/2 < x - x.floor then x.floor + 1
  else if x.floor % 2 = 0 then x.floor else x.floor + 1

/-- Python `round(x, 4)` on exact rationals. -/
def round4 (x : ℚ) : ℚ :=
  (roundHalfEven (x * 10000) : ℚ) / 10000

/-- The three quantities computed by the branch of `generate_prediction`
that picks the risk band: probability, risk level, binary label. -/
structure RiskCalc where
  endo_prob : ℚ
  risk_level : String
  prediction : ℕ
deriving DecidableEq, Repr

/-- The scorer's result dict (`generate_prediction`'s return value, minus the
endpoint's free-text message): label, label text, rounded confidence, rounded
probability pair, risk tier. -/
structure Outcome where
  prediction : ℕ
  prediction_label : String
  confidence : ℚ
  no_endometriosis : ℚ
  endometriosis : ℚ
  risk_level : String
deriving DecidableEq, Repr

/-- `symptom_count = sum(1 for v in symptom_data.values() if v > 0)`. -/
def symptom_count (d : Dict) : ℕ :=
  d.countP fun kv => decide (0 < kv.2)

/-- `high_risk_count = sum(1 for s in high_risk_symptoms if symptom_data.get(s, 0) > 0)`. -/
def high_risk_count (d : Dict) : ℕ :=
  high_risk_symptoms.countP fun s => decide (0 < get d s 0)

/-- `moderate_risk_count = sum(1 for s in moderate_risk_symptoms if symptom_data.get(s, 0) > 0)`. -/
def moderate_risk_count (d : Dict) : ℕ :=
  moderate_risk_symptoms.countP fun s => decide (0 < get d s 0)

/-- `weighted_score = (high_risk_count * 2) + (moderate_risk_count * 1) + (symptom_count * 0.5)`. -/
def weighted_score (d : Dict) : ℚ :=
  (high_risk_count d : ℚ) * 2 + (moderate_risk_count d : ℚ) * 1
    + (symptom_count d : ℚ) * (1/2)

/-- The `if/elif/else` risk-band selection of `generate_prediction`
(`predict_api.py`, lines 94-106). -/
def riskCalc (d : Dict) : RiskCalc :=
  if 8 ≤ weighted_score d ∨ 3 ≤ high_risk_count d then
    ⟨min (85/100) (6/10 + weighted_score d * (5/100)), "High", 1⟩
  else if 4 ≤ weighted_score d ∨ 1 ≤ high_risk_count d then
    ⟨min (65/100) (3/10 + weighted_score d * (8/100)), "Moderate",
      if min (65/100) (3/10 + weighted_score d * (8/100)) < 1/2 then 0 else 1⟩
  else
    ⟨min (35/100) (1/10 + weighted_score d * (5/100)), "Low", 0⟩

/-- `generate_prediction` (`predict_api.py`): band selection, confidence for the
predicted class, and the response dict with both probabilities rounded to 4
decimal places. -/
def generate_prediction (d : Dict) : Outcome :=
  let c := riskCalc d
  { prediction := c.prediction
    prediction_label := if c.prediction = 1 then "Endometriosis" else "No Endometriosis"
    confidence := round4 (if c.prediction = 1 then c.endo_prob else 1 - c.endo_prob)
    no_endometriosis := round4 (1 - c.endo_prob)
    endometriosis := round4 c.endo_prob
    risk_level := c.risk_level }

/-- `get_risk_level` (`predict_user_input.py`, lines 126-133). -/
def get_risk_level (endo_probability : ℚ) : String :=
  if endo_probability < 3/10 then "Low"
  else if endo_probability < 7/10 then "Moderate"
  else "High"

/-- `generate_dummy_prediction` (`predict_user_input.py`, lines 96-124). -/
def generate_dummy_prediction (d : Dict) : Outcome :=
  let sc := symptom_count d
  let c : RiskCalc :=
    if 8 ≤ sc then ⟨75/100, "High", 1⟩
    else if 4 ≤ sc then ⟨45/100, "Moderate", 0⟩
    else ⟨1/5, "Low", 0⟩
  { prediction := c.prediction
    prediction_label := if c.prediction = 1 then "Endometriosis" else "No Endometriosis"
    confidence := round4 (if c.prediction = 0 then 1 - c.endo_prob else c.endo_prob)
    no_endometriosis := round4 (1 - c.endo_prob)
    endometriosis := round4 c.endo_prob
    risk_level := c.risk_level }

/-- `aggregate_daily_logs` (`predict_api.py`, lines 121-151): `{}` on an empty
list, otherwise the 27-key dict of per-key presence fractions, where a day
counts as "present" when `log.get(key, False)` is truthy (value ≠ 0). -/
def aggregate_daily_logs (daily_logs : List Dict) : Dict :=
  if daily_logs = [] then []
  else symptom_keys.map fun k =>
    (k, ((daily_logs.countP fun log => decide (fieldVal log k ≠ 0) : ℕ) : ℚ)
          / (daily_logs.length : ℚ))

/-- The pydantic `SymptomInput` field contract: every schema key's value
(provided, or the default `0`) lies in `[0, 1]`. -/
def validInput (raw : Dict) : Prop :=
  ∀ k ∈ symptom_keys, 0 ≤ fieldVal raw k ∧ fieldVal raw k ≤ 1

instance : DecidablePred validInput := fun _ =>
  List.decidableBAll _ _

/-- The pydantic `SymptomInput` model applied to a raw request mapping:
rejects any schema field whose provided value is outside `[0, 1]`, otherwise
produces the complete 27-key dict (`symptoms.dict()`), unknown keys dropped
and missing keys defaulted to `0`. -/
def symptomInput (raw : Dict) : Except String Dict :=
  if validInput raw then
    Except.ok (symptom_keys.map fun k => (k, fieldVal raw k))
  else Except.error "InvalidSymptomValue"

/-- A complete feature vector: the 27-key dict with value `f k` at key `k`
(the shape of every dict that reaches `generate_prediction` via the API). -/
def featureVec (f : String → ℚ) : Dict :=
  symptom_keys.map fun k => (k, f k)

/-- The `/predict` endpoint pipeline: parse through `SymptomInput`, then score. -/
def predict_single (raw : Dict) : Except String Outcome :=
  (symptomInput raw).map generate_prediction

/-- The `/predict-multi-day` endpoint pipeline: parse each day's symptoms
through `SymptomInput`, reject an empty list, aggregate, then score. -/
def predict_multi_day (raws : List Dict) : Except String Outcome := do
  let logs ← raws.mapM symptomInput
  if logs.length = 0 then Except.error "At least one daily log is required"
  else Except.ok (generate_prediction (aggregate_daily_logs logs))

/-! Spec-side definitions, written from the specification's words, to be
compared with the source-derived scorer. -/

/-- Spec reading: presence count (value > 0) over the fixed 6-key
high-risk subset of a complete feature vector `f`. -/
def spec_high_count (f : String → ℚ) : ℕ :=
  high_risk_symptoms.countP fun k => decide (0 < f k)

/-- Spec reading: presence count over the fixed 6-key moderate-risk subset. -/
def spec_moderate_count (f : String → ℚ) : ℕ :=
  moderate_risk_symptoms.countP fun k => decide (0 < f k)

/-- Spec reading: presence count over all 27 symptom keys. -/
def spec_symptom_count (f : String → ℚ) : ℕ :=
  symptom_keys.countP fun k => decide (0 < f k)

/-- Spec reading: `weighted_score = 2*high_count + 1*moderate_count + 0.5*symptom_count`. -/
def spec_weighted_score (f : String → ℚ) : ℚ :=
  2 * (spec_high_count f : ℚ) + 1 * (spec_moderate_count f : ℚ)
    + (1/2) * (spec_symptom_count f : ℚ)

/-- Spec reading of the classification policy, first matching branch wins:
High with `p = min(0.85, 0.6 + 0.05*w)` and label 1 when `w >= 8` or
`high_count >= 3`; else Moderate with `p = min(0.65, 0.3 + 0.08*w)` and
label 1 iff `p >= 0.5` when `w >= 4` or `high_count >= 1`; else Low with
`p = min(0.35, 0.1 + 0.05*w)` and label 0. -/
def specClassify (f : String → ℚ) : RiskCalc :=
  if 8 ≤ spec_weighted_score f ∨ 3 ≤ spec_high_count f then
    ⟨min (85/100) (6/10 + (5/100) * spec_weighted_score f), "High", 1⟩
  else if 4 ≤ spec_weighted_score f ∨ 1 ≤ spec_high_count f then
    ⟨min (65/100) (3/10 + (8/100) * spec_weighted_score f), "Moderate",
      if 1/2 ≤ min (65/100) (3/10 + (8/100) * spec_weighted_score f) then 1 else 0⟩
  else
    ⟨min (35/100) (1/10 + (5/100) * spec_weighted_score f), "Low", 0⟩

/-- Rank of a risk tier in the total order Low < Moderate < High. -/
def tierRank (t : String) : ℕ :=
  if t = "Low" then 0 else if t = "Moderate" then 1 else 2

/-- Feature values with exactly three high-risk symptoms set and nothing else. -/
def exThreeHigh : String → ℚ := fun k =>
  if k = "Cramping" ∨ k = "Ovarian_cysts" ∨ k = "Infertility" then 1 else 0

/-- Feature values with exactly one high-risk symptom set and nothing else. -/
def exOneHigh : String → ℚ := fun k =>
  if k = "Cramping" then 1 else 0

/-- A daily log reporting `Cramping` at fractional intensity `0.5`. -/
def exHalfLog : Dict := [("Cramping", 1/2)]

/-! ### Helper lemmas -/

theorem lookup_map_self {β : Type} (l : List String) (f : String → β) (k : String)
    (hk : k ∈ l) : List.lookup k (l.map fun a => (a, f a)) = some (f k) := by
  induction l with
  | nil => cases hk
  | cons a t ih =>
    rcases List.mem_cons.mp hk with rfl | hk'
    · simp [List.lookup]
    · by_cases hka : k = a
      · subst hka; simp [List.lookup]
      · have hb : (k == a) = false := beq_false_of_ne hka
        simpa [List.lookup, hb] using ih hk'

theorem lookup_cons_ne {β : Type} (a k : String) (v : β) (l : List (String × β))
    (h : a ≠ k) : List.lookup a ((k, v) :: l) = List.lookup a l := by
  simp [List.lookup, beq_false_of_ne h]

theorem get_zero_eq_fieldVal (d : Dict) (k : String) : get d k 0 = fieldVal d k := rfl

theorem fieldVal_featureVec (f : String → ℚ) (k : String) (hk : k ∈ symptom_keys) :
    fieldVal (featureVec f) k = f k := by
  unfold fieldVal featureVec
  rw [lookup_map_self _ _ _ hk]
  rfl

theorem high_sub : ∀ k ∈ high_risk_symptoms, k ∈ symptom_keys := by decide

theorem moderate_sub : ∀ k ∈ moderate_risk_symptoms, k ∈ symptom_keys := by decide

theorem high_nodup : high_risk_symptoms.Nodup := by decide

theorem symptom_count_featureVec (f : String → ℚ) :
    symptom_count (featureVec f) = spec_symptom_count f := by
  unfold symptom_count featureVec spec_symptom_count
  rw [List.countP_map]
  rfl

theorem high_risk_count_featureVec (f : String → ℚ) :
    high_risk_count (featureVec f) = spec_high_count f := by
  unfold high_risk_count spec_high_count
  apply List.countP_congr
  intro x hx
  rw [get_zero_eq_fieldVal, fieldVal_featureVec _ _ (high_sub x hx)]

theorem moderate_risk_count_featureVec (f : String → ℚ) :
    moderate_risk_count (featureVec f) = spec_moderate_count f := by
  unfold moderate_risk_count spec_moderate_count
  apply List.countP_congr
  intro x hx
  rw [get_zero_eq_fieldVal, fieldVal_featureVec _ _ (moderate_sub x hx)]

theorem spec_high_le_symptom (f : String → ℚ) :
    spec_high_count f ≤ spec_symptom_count f :=
  List.Subperm.countP_le _
    (List.subperm_of_subset high_nodup fun a ha => high_sub a ha)

theorem hc_le_sc (f : String → ℚ) :
    high_risk_count (featureVec f) ≤ symptom_count (featureVec f) := by
  rw [high_risk_count_featureVec, symptom_count_featureVec]
  exact spec_high_le_symptom f

theorem weighted_score_featureVec (f : String → ℚ) :
    weighted_score (featureVec f) = spec_weighted_score f := by
  unfold weighted_score spec_weighted_score
  rw [high_risk_count_featureVec, moderate_risk_count_featureVec, symptom_count_featureVec]
  ring

theorem weighted_score_nonneg (d : Dict) : 0 ≤ weighted_score d := by
  unfold weighted_score
  positivity

theorem ratFloor_intCast (n : ℤ) : ((n : ℚ)).floor = n := by
  rw [Rat.floor_def']
  simp

theorem roundHalfEven_intCast (n : ℤ) : roundHalfEven (n : ℚ) = n := by
  unfold roundHalfEven
  rw [ratFloor_intCast]
  norm_num

theorem round4_eq_self {x : ℚ} (n : ℤ) (h : x * 10000 = (n : ℚ)) : round4 x = x := by
  unfold round4
  rw [h, roundHalfEven_intCast, div_eq_iff (by norm_num : (10000 : ℚ) ≠ 0)]
  linarith

theorem min_mul_nonneg (a b c : ℚ) (hc : 0 ≤ c) : min a b * c = min (a * c) (b * c) := by
  rcases le_total a b with h | h
  · rw [min_eq_left h, min_eq_left (mul_le_mul_of_nonneg_right h hc)]
  · rw [min_eq_right h, min_eq_right (mul_le_mul_of_nonneg_right h hc)]

theorem weighted_score_double (d : Dict) :
    weighted_score d * 2
      = ((4 * high_risk_count d + 2 * moderate_risk_count d + symptom_count d : ℕ) : ℚ) := by
  unfold weighted_score
  push_cast
  ring

theorem endo_prob_mul_200 (d : Dict) :
    ∃ n : ℤ, (riskCalc d).endo_prob * 200 = (n : ℚ) := by
  have hws := weighted_score_double d
  set w : ℕ := 4 * high_risk_count d + 2 * moderate_risk_count d + symptom_count d with hw
  unfold riskCalc
  by_cases h1 : 8 ≤ weighted_score d ∨ 3 ≤ high_risk_count d
  · rw [if_pos h1]
    refine ⟨min 170 (120 + 5 * (w : ℤ)), ?_⟩
    show min (85/100) (6/10 + weighted_score d * (5/100)) * 200 = _
    rw [min_mul_nonneg _ _ _ (by norm_num), Int.cast_min]
    congr 1
    · norm_num
    · push_cast
      linarith
  · rw [if_neg h1]
    by_cases h2 : 4 ≤ weighted_score d ∨ 1 ≤ high_risk_count d
    · rw [if_pos h2]
      refine ⟨min 130 (60 + 8 * (w : ℤ)), ?_⟩
      show min (65/100) (3/10 + weighted_score d * (8/100)) * 200 = _
      rw [min_mul_nonneg _ _ _ (by norm_num), Int.cast_min]
      congr 1
      · norm_num
      · push_cast
        linarith
    · rw [if_neg h2]
      refine ⟨min 70 (20 + 5 * (w : ℤ)), ?_⟩
      show min (35/100) (1/10 + weighted_score d * (5/100)) * 200 = _
      rw [min_mul_nonneg _ _ _ (by norm_num), Int.cast_min]
      congr 1
      · norm_num
      · push_cast
        linarith

theorem endometriosis_eq_endo_prob (d : Dict) :
    (generate_prediction d).endometriosis = (riskCalc d).endo_prob := by
  obtain ⟨n, hn⟩ := endo_prob_mul_200 d
  show round4 (riskCalc d).endo_prob = (riskCalc d).endo_prob
  exact round4_eq_self (50 * n) (by push_cast; linarith)

theorem no_endometriosis_eq (d : Dict) :
    (generate_prediction d).no_endometriosis = 1 - (riskCalc d).endo_prob := by
  obtain ⟨n, hn⟩ := endo_prob_mul_200 d
  show round4 (1 - (riskCalc d).endo_prob) = 1 - (riskCalc d).endo_prob
  exact round4_eq_self (10000 - 50 * n) (by push_cast; linarith)

theorem riskCalc_high {d : Dict} (hs : high_risk_count d ≤ symptom_count d)
    (h : 8 ≤ weighted_score d ∨ 3 ≤ high_risk_count d) :
    riskCalc d = ⟨85/100, "High", 1⟩ := by
  unfold riskCalc
  rw [if_pos h]
  have hws : 5 ≤ weighted_score d := by
    rcases h with h | h
    · linarith
    · have h3 : (3 : ℚ) ≤ (high_risk_count d : ℚ) := by exact_mod_cast h
      have hsq : (high_risk_count d : ℚ) ≤ (symptom_count d : ℚ) := by exact_mod_cast hs
      have hm : (0 : ℚ) ≤ (moderate_risk_count d : ℚ) := by positivity
      unfold weighted_score
      linarith
  simp only [RiskCalc.mk.injEq]
  refine ⟨min_eq_left (by linarith), trivial, trivial⟩

theorem riskCalc_moderate {d : Dict} (hs : high_risk_count d ≤ symptom_count d)
    (h1 : ¬(8 ≤ weighted_score d ∨ 3 ≤ high_risk_count d))
    (h2 : 4 ≤ weighted_score d ∨ 1 ≤ high_risk_count d) :
    riskCalc d = ⟨min (65/100) (3/10 + weighted_score d * (8/100)), "Moderate", 1⟩ ∧
      1/2 ≤ (riskCalc d).endo_prob ∧ (riskCalc d).endo_prob ≤ 65/100 := by
  have hp : 1/2 ≤ min (65/100) (3/10 + weighted_score d * (8/100)) := by
    apply le_min
    · norm_num
    · rcases h2 with h | h
      · linarith
      · have hq : (1 : ℚ) ≤ (high_risk_count d : ℚ) := by exact_mod_cast h
        have hsq : (high_risk_count d : ℚ) ≤ (symptom_count d : ℚ) := by exact_mod_cast hs
        have hm : (0 : ℚ) ≤ (moderate_risk_count d : ℚ) := by positivity
        unfold weighted_score
        linarith
  have hrc : riskCalc d = ⟨min (65/100) (3/10 + weighted_score d * (8/100)), "Moderate", 1⟩ := by
    unfold riskCalc
    rw [if_neg h1, if_pos h2]
    simp only [RiskCalc.mk.injEq]
    refine ⟨trivial, trivial, ?_⟩
    rw [if_neg (not_lt.mpr hp)]
  refine ⟨hrc, ?_, ?_⟩
  · rw [hrc]
    exact hp
  · rw [hrc]
    exact min_le_left _ _

theorem riskCalc_low {d : Dict}
    (h1 : ¬(8 ≤ weighted_score d ∨ 3 ≤ high_risk_count d))
    (h2 : ¬(4 ≤ weighted_score d ∨ 1 ≤ high_risk_count d)) :
    riskCalc d = ⟨min (35/100) (1/10 + weighted_score d * (5/100)), "Low", 0⟩ ∧
      0 ≤ (riskCalc d).endo_prob ∧ (riskCalc d).endo_prob < 3/10 := by
  push_neg at h2
  have hrc : riskCalc d = ⟨min (35/100) (1/10 + weighted_score d * (5/100)), "Low", 0⟩ := by
    unfold riskCalc
    rw [if_neg h1, if_neg (by push_neg; exact h2)]
  refine ⟨hrc, ?_, ?_⟩
  · rw [hrc]
    have := weighted_score_nonneg d
    exact le_min (by norm_num) (by linarith)
  · rw [hrc]
    have hlt : 1/10 + weighted_score d * (5/100) < 3/10 := by linarith [h2.1]
    exact lt_of_le_of_lt (min_le_right _ _) hlt

/-! ### Claim theorems -/

/-- C2: for every input dict (in particular every feature vector), the rounded
probability pair of the rule-based scorer sums to exactly 1, and likewise for
the dummy scorer: every reachable probability is a multiple of 1/200, so
4-decimal rounding is exact on both entries. -/
theorem c2_probability_pair_sums_to_one (d : Dict) :
    (generate_prediction d).no_endometriosis + (generate_prediction d).endometriosis = 1 ∧
    (generate_dummy_prediction d).no_endometriosis
      + (generate_dummy_prediction d).endometriosis = 1 := by
  constructor
  · rw [no_endometriosis_eq, endometriosis_eq_endo_prob]
    ring
  · by_cases h1 : 8 ≤ symptom_count d
    · show round4 (1 - (if 8 ≤ symptom_count d then (⟨75/100, "High", 1⟩ : RiskCalc)
          else if 4 ≤ symptom_count d then ⟨45/100, "Moderate", 0⟩
          else ⟨1/5, "Low", 0⟩).endo_prob) + round4 _ = 1
      rw [if_pos h1]
      show round4 (1 - 75/100) + round4 (75/100) = 1
      rw [round4_eq_self 2500 (by norm_num), round4_eq_self 7500 (by norm_num)]
      norm_num
    · by_cases h2 : 4 ≤ symptom_count d
      · show round4 (1 - (if 8 ≤ symptom_count d then (⟨75/100, "High", 1⟩ : RiskCalc)
            else if 4 ≤ symptom_count d then ⟨45/100, "Moderate", 0⟩
            else ⟨1/5, "Low", 0⟩).endo_prob) + round4 _ = 1
        rw [if_neg h1, if_pos h2]
        show round4 (1 - 45/100) + round4 (45/100) = 1
        rw [round4_eq_self 5500 (by norm_num), round4_eq_self 4500 (by norm_num)]
        norm_num
      · show round4 (1 - (if 8 ≤ symptom_count d then (⟨75/100, "High", 1⟩ : RiskCalc)
            else if 4 ≤ symptom_count d then ⟨45/100, "Moderate", 0⟩
            else ⟨1/5, "Low", 0⟩).endo_prob) + round4 _ = 1
        rw [if_neg h1, if_neg h2]
        show round4 (1 - 1/5) + round4 (1/5) = 1
        rw [round4_eq_self 8000 (by norm_num), round4_eq_self 2000 (by norm_num)]
        norm_num

/-- C7: the reported confidence is the 4-decimal rounding of the probability of
the predicted class (`p` when the label is 1, `1 - p` when it is 0), and equals
the probability-pair entry for the predicted class. -/
theorem c7_confidence_matches_predicted_class (d : Dict) :
    (generate_prediction d).confidence
        = round4 (if (riskCalc d).prediction = 1 then (riskCalc d).endo_prob
                  else 1 - (riskCalc d).endo_prob) ∧
    (generate_prediction d).confidence
        = (if (generate_prediction d).prediction = 1 then (generate_prediction d).endometriosis
           else (generate_prediction d).no_endometriosis) := by
  refine ⟨rfl, ?_⟩
  have hpred : (generate_prediction d).prediction = (riskCalc d).prediction := rfl
  by_cases h : (riskCalc d).prediction = 1
  · rw [hpred, if_pos h]
    show round4 (if (riskCalc d).prediction = 1 then (riskCalc d).endo_prob
          else 1 - (riskCalc d).endo_prob) = round4 (riskCalc d).endo_prob
    rw [if_pos h]
  · rw [hpred, if_neg h]
    show round4 (if (riskCalc d).prediction = 1 then (riskCalc d).endo_prob
          else 1 - (riskCalc d).endo_prob) = round4 (1 - (riskCalc d).endo_prob)
    rw [if_neg h]

/-- C3 counterexample: `aggregate_daily_logs` applied to the empty sequence
silently returns the empty mapping; it does not fail (its type carries no
error channel, and the result is `{}`), refuting the claim as stated. -/
theorem c3_counterexample_empty_returns_empty_map :
    aggregate_daily_logs [] = ([] : Dict) := rfl

/-- C3 amended: `aggregate_daily_logs` returns the empty mapping on an empty
sequence, but the multi-day endpoint rejects an empty `daily_logs` list with
an error before aggregating, so empty input never silently reaches scoring. -/
theorem c3_amended_empty_rejected_by_endpoint :
    aggregate_daily_logs [] = ([] : Dict) ∧
    predict_multi_day [] = Except.error "At least one daily log is required" :=
  ⟨rfl, rfl⟩

/-- C8: aggregation is order-independent: permuted daily-log sequences yield
identical aggregated dicts. -/
theorem c8_aggregation_perm_invariant (l1 l2 : List Dict) (hp : l1.Perm l2) :
    aggregate_daily_logs l1 = aggregate_daily_logs l2 := by
  rcases eq_or_ne l1 [] with rfl | hne
  · rw [hp.symm.eq_nil]
  · have hne2 : l2 ≠ [] := fun h => hne (by subst h; exact hp.eq_nil)
    unfold aggregate_daily_logs
    rw [if_neg hne, if_neg hne2]
    apply List.map_congr_left
    intro k _
    rw [hp.countP_eq, hp.length_eq]

/-- C8 witness: swapping two concrete daily logs leaves the aggregate unchanged. -/
theorem c8_witness :
    aggregate_daily_logs [exHalfLog, []] = aggregate_daily_logs [[], exHalfLog] :=
  c8_aggregation_perm_invariant _ _ (List.Perm.swap [] exHalfLog [])

/-- C1: on every complete feature vector the source scorer's band selection
agrees with the spec's description (presence counts over the fixed subsets,
the weighted score, and the branch order with its probability formulas and
labels); and the vector with exactly three high-risk keys set is classified
High through the `high_count >= 3` disjunct with weighted score below 8. -/
theorem c1_rule_based_scorer :
    (∀ f : String → ℚ, riskCalc (featureVec f) = specClassify f) ∧
    riskCalc (featureVec exThreeHigh) = ⟨85/100, "High", 1⟩ ∧
    high_risk_count (featureVec exThreeHigh) = 3 ∧
    weighted_score (featureVec exThreeHigh) < 8 := by
  refine ⟨?_, ?_, ?_, ?_⟩
  · intro f
    have hh := high_risk_count_featureVec f
    have hw := weighted_score_featureVec f
    unfold riskCalc specClassify
    rw [hh, hw]
    rw [mul_comm (spec_weighted_score f) (5/100), mul_comm (spec_weighted_score f) (8/100)]
    by_cases hp : min ((65:ℚ)/100) (3/10 + (8/100) * spec_weighted_score f) < 1/2
    · rw [if_pos hp, if_neg (not_le.mpr hp)]
    · rw [if_neg hp, if_pos (not_lt.mp hp)]
  · with_unfolding_all rfl
  · with_unfolding_all rfl
  · rw [show weighted_score (featureVec exThreeHigh) = 15/2 by with_unfolding_all rfl]
    norm_num

theorem risk_level_eq_thresholds (f : String → ℚ) :
    (generate_prediction (featureVec f)).risk_level
      = get_risk_level ((generate_prediction (featureVec f)).endometriosis) := by
  have hs := hc_le_sc f
  rw [endometriosis_eq_endo_prob]
  have hrl : (generate_prediction (featureVec f)).risk_level
      = (riskCalc (featureVec f)).risk_level := rfl
  rw [hrl]
  by_cases h1 : 8 ≤ weighted_score (featureVec f) ∨ 3 ≤ high_risk_count (featureVec f)
  · have hrc := riskCalc_high hs h1
    have hlevel : (riskCalc (featureVec f)).risk_level = "High" := by rw [hrc]
    have hp : (riskCalc (featureVec f)).endo_prob = 85/100 := by rw [hrc]
    rw [hlevel, hp]
    unfold get_risk_level
    norm_num
  · by_cases h2 : 4 ≤ weighted_score (featureVec f) ∨ 1 ≤ high_risk_count (featureVec f)
    · obtain ⟨hrc, hlo, hhi⟩ := riskCalc_moderate hs h1 h2
      have hlevel : (riskCalc (featureVec f)).risk_level = "Moderate" := by rw [hrc]
      rw [hlevel]
      unfold get_risk_level
      rw [if_neg (not_lt.mpr (by linarith)), if_pos (by linarith)]
    · obtain ⟨hrc, h0, hlt⟩ := riskCalc_low h1 h2
      have hlevel : (riskCalc (featureVec f)).risk_level = "Low" := by rw [hrc]
      rw [hlevel]
      unfold get_risk_level
      rw [if_pos hlt]

theorem tierRank_le_two (t : String) : tierRank t ≤ 2 := by
  unfold tierRank
  split_ifs <;> omega

theorem tierRank_mono {p q : ℚ} (h : p ≤ q) :
    tierRank (get_risk_level p) ≤ tierRank (get_risk_level q) := by
  have hL : tierRank "Low" = 0 := rfl
  have hM : tierRank "Moderate" = 1 := rfl
  have hH : tierRank "High" = 2 := rfl
  unfold get_risk_level
  split_ifs <;> simp only [hL, hM, hH] <;> first | omega | (exfalso; linarith)

/-- C6: the rule-based scorer's risk tier agrees with the fixed threshold table
`get_risk_level` applied to the reported `endometriosis` probability
(Low iff p < 0.3, Moderate iff 0.3 <= p < 0.7, High iff p >= 0.7), and the
tier is a non-decreasing function of that probability. -/
theorem c6_tier_matches_probability_thresholds :
    (∀ f : String → ℚ,
        (generate_prediction (featureVec f)).risk_level
          = get_risk_level ((generate_prediction (featureVec f)).endometriosis)) ∧
    (∀ f g : String → ℚ,
        (generate_prediction (featureVec f)).endometriosis
            ≤ (generate_prediction (featureVec g)).endometriosis →
        tierRank (generate_prediction (featureVec f)).risk_level
            ≤ tierRank (generate_prediction (featureVec g)).risk_level) := by
  refine ⟨risk_level_eq_thresholds, ?_⟩
  intro f g h
  rw [risk_level_eq_thresholds f, risk_level_eq_thresholds g]
  exact tierRank_mono h

/-- C6 witness: the threshold-table equality and the monotonicity step at the
all-zero and all-one vectors (probabilities 0.1 <= 0.85 give tiers Low <= High). -/
theorem c6_witness :
    (generate_prediction (featureVec fun _ => 0)).risk_level
        = get_risk_level ((generate_prediction (featureVec fun _ => 0)).endometriosis) ∧
    tierRank (generate_prediction (featureVec fun _ => 0)).risk_level
        ≤ tierRank (generate_prediction (featureVec fun _ => 1)).risk_level :=
  ⟨c6_tier_matches_probability_thresholds.1 (fun _ => 0),
   c6_tier_matches_probability_thresholds.2 (fun _ => 0) (fun _ => 1)
     (by rw [show (generate_prediction (featureVec fun _ => 0)).endometriosis = 1/10
               by with_unfolding_all rfl,
             show (generate_prediction (featureVec fun _ => 1)).endometriosis = 85/100
               by with_unfolding_all rfl]
         norm_num)⟩

/-- C10: the binary label is 1 exactly when the tier is Moderate or High and 0
exactly when it is Low; in the Moderate band the probability is always at
least 0.5, so the conditional label there always resolves to 1. -/
theorem c10_label_iff_tier (f : String → ℚ) :
    ((generate_prediction (featureVec f)).prediction = 1 ↔
      (generate_prediction (featureVec f)).risk_level = "Moderate" ∨
        (generate_prediction (featureVec f)).risk_level = "High") ∧
    ((generate_prediction (featureVec f)).prediction = 0 ↔
      (generate_prediction (featureVec f)).risk_level = "Low") ∧
    ((generate_prediction (featureVec f)).risk_level = "Moderate" →
      1/2 ≤ (riskCalc (featureVec f)).endo_prob) := by
  have hs := hc_le_sc f
  have hpred : (generate_prediction (featureVec f)).prediction
      = (riskCalc (featureVec f)).prediction := rfl
  have hrl : (generate_prediction (featureVec f)).risk_level
      = (riskCalc (featureVec f)).risk_level := rfl
  by_cases h1 : 8 ≤ weighted_score (featureVec f) ∨ 3 ≤ high_risk_count (featureVec f)
  · have hrc := riskCalc_high hs h1
    have hp1 : (riskCalc (featureVec f)).prediction = 1 := by rw [hrc]
    have hlv : (riskCalc (featureVec f)).risk_level = "High" := by rw [hrc]
    refine ⟨?_, ?_, ?_⟩
    · rw [hpred, hp1, hrl, hlv]
      simp
    · rw [hpred, hp1, hrl, hlv]
      simp
    · intro hmod
      rw [hrl, hlv] at hmod
      exact absurd hmod (by decide)
  · by_cases h2 : 4 ≤ weighted_score (featureVec f) ∨ 1 ≤ high_risk_count (featureVec f)
    · obtain ⟨hrc, hlo, _⟩ := riskCalc_moderate hs h1 h2
      have hp1 : (riskCalc (featureVec f)).prediction = 1 := by rw [hrc]
      have hlv : (riskCalc (featureVec f)).risk_level = "Moderate" := by rw [hrc]
      refine ⟨?_, ?_, fun _ => hlo⟩
      · rw [hpred, hp1, hrl, hlv]
        simp
      · rw [hpred, hp1, hrl, hlv]
        simp
    · obtain ⟨hrc, _, _⟩ := riskCalc_low h1 h2
      have hp0 : (riskCalc (featureVec f)).prediction = 0 := by rw [hrc]
      have hlv : (riskCalc (featureVec f)).risk_level = "Low" := by rw [hrc]
      refine ⟨?_, ?_, ?_⟩
      · rw [hpred, hp0, hrl, hlv]
        simp
      · rw [hpred, hp0, hrl, hlv]
        simp
      · intro hmod
        rw [hrl, hlv] at hmod
        exact absurd hmod (by decide)

/-- C10 witness: a vector with exactly one high-risk key lands in the Moderate
band, where the probability is at least 0.5. -/
theorem c10_witness :
    1/2 ≤ (riskCalc (featureVec exOneHigh)).endo_prob :=
  (c10_label_iff_tier exOneHigh).2.2 (by with_unfolding_all rfl)

/-- C4: keys outside the 27-key schema are ignored, not an error: adding such a
key to a request leaves the parsed input, the single-day prediction outcome,
and the aggregate of its daily log unchanged. -/
theorem c4_unknown_keys_ignored (raw : Dict) (k : String) (v : ℚ)
    (hk : k ∉ symptom_keys) :
    symptomInput ((k, v) :: raw) = symptomInput raw ∧
    predict_single ((k, v) :: raw) = predict_single raw ∧
    ∀ (log : Dict) (logs : List Dict),
      aggregate_daily_logs (((k, v) :: log) :: logs)
        = aggregate_daily_logs (log :: logs) := by
  have hfv : ∀ raw' : Dict, ∀ k' ∈ symptom_keys,
      fieldVal ((k, v) :: raw') k' = fieldVal raw' k' := by
    intro raw' k' hk'
    unfold fieldVal
    rw [lookup_cons_ne _ _ _ _ (fun h => hk (by rw [← h]; exact hk'))]
  have hsi : symptomInput ((k, v) :: raw) = symptomInput raw := by
    unfold symptomInput
    have hvi : validInput ((k, v) :: raw) ↔ validInput raw := by
      unfold validInput
      constructor
      · intro h k' hk'
        rw [← hfv raw k' hk']
        exact h k' hk'
      · intro h k' hk'
        rw [hfv raw k' hk']
        exact h k' hk'
    by_cases hv : validInput raw
    · rw [if_pos (hvi.mpr hv), if_pos hv]
      congr 1
      exact List.map_congr_left fun k' hk' => by rw [hfv raw k' hk']
    · rw [if_neg (fun hc => hv (hvi.mp hc)), if_neg hv]
  refine ⟨hsi, ?_, ?_⟩
  · unfold predict_single
    rw [hsi]
  · intro log logs
    unfold aggregate_daily_logs
    rw [if_neg (by simp), if_neg (by simp)]
    apply List.map_congr_left
    intro k' hk'
    have hcnt : (((k, v) :: log) :: logs).countP (fun log' => decide (fieldVal log' k' ≠ 0))
        = (log :: logs).countP (fun log' => decide (fieldVal log' k' ≠ 0)) := by
      rw [List.countP_cons, List.countP_cons, hfv log k' hk']
    rw [hcnt]
    simp only [List.length_cons]

/-- C4 witness: adding an unknown key with a nonzero value to the empty request
and to an empty daily log changes nothing. -/
theorem c4_witness :
    symptomInput [("Unknown_key", 1)] = symptomInput [] ∧
    predict_single [("Unknown_key", 1)] = predict_single [] ∧
    aggregate_daily_logs [[("Unknown_key", 1)]] = aggregate_daily_logs [[]] := by
  have h := c4_unknown_keys_ignored [] "Unknown_key" 1 (by decide)
  exact ⟨h.1, h.2.1, h.2.2 [] []⟩

/-- C5: for a non-empty daily-log sequence and a schema key with nonnegative
raw values, the aggregated value is the presence fraction
(count of logs with value > 0, divided by the log count); a log reporting 0.5
contributes a full presence count of 1, so one half-intensity day out of two
aggregates to 1/2, not to the raw average 1/4. -/
theorem c5_presence_fraction :
    (∀ (logs : List Dict) (k : String), logs ≠ [] → k ∈ symptom_keys →
        (∀ log ∈ logs, 0 ≤ fieldVal log k) →
        List.lookup k (aggregate_daily_logs logs)
          = some (((logs.countP fun log => decide (0 < fieldVal log k)) : ℚ)
              / (logs.length : ℚ))) ∧
    List.lookup "Cramping" (aggregate_daily_logs [exHalfLog, []]) = some (1/2) := by
  constructor
  · intro logs k hne hk hnn
    have hcnt : (logs.countP fun log => decide (fieldVal log k ≠ 0))
        = logs.countP fun log => decide (0 < fieldVal log k) := by
      apply List.countP_congr
      intro log hlog
      simp only [decide_eq_true_eq]
      exact ⟨fun h => lt_of_le_of_ne (hnn log hlog) (Ne.symm h), fun h => ne_of_gt h⟩
    unfold aggregate_daily_logs
    rw [if_neg hne, lookup_map_self _ _ _ hk, hcnt]
  · with_unfolding_all rfl

/-- C5 witness: the presence-fraction formula instantiated at a concrete
two-day sequence whose first day reports `Cramping = 0.5`. -/
theorem c5_witness :
    List.lookup "Cramping" (aggregate_daily_logs [exHalfLog, []])
      = some ((([exHalfLog, []].countP
            fun log => decide (0 < fieldVal log "Cramping")) : ℚ)
          / (([exHalfLog, []] : List Dict).length : ℚ)) :=
  c5_presence_fraction.1 [exHalfLog, []] "Cramping" (List.cons_ne_nil _ _) (by decide)
    (by
      intro log hlog
      rcases List.mem_cons.mp hlog with rfl | hlog'
      · show (0 : ℚ) ≤ 1/2
        norm_num
      · rcases List.mem_cons.mp hlog' with rfl | hlog''
        · show (0 : ℚ) ≤ 0
          norm_num
        · cases hlog'')

/-- C9: a provided schema-key value outside [0,1] is rejected at input-model
construction with the `InvalidSymptomValue` error before any scoring happens;
when construction succeeds the values pass through unclamped and scoring is
total, so no error can arise at scoring time. -/
theorem c9_out_of_range_rejected_at_construction (raw : Dict) :
    (¬ validInput raw → predict_single raw = Except.error "InvalidSymptomValue") ∧
    ∀ d : Dict, symptomInput raw = Except.ok d →
      (∀ k ∈ symptom_keys, fieldVal d k = fieldVal raw k) ∧
      predict_single raw = Except.ok (generate_prediction d) := by
  constructor
  · intro hv
    unfold predict_single symptomInput
    rw [if_neg hv]
    rfl
  · intro d hd
    unfold symptomInput at hd
    by_cases hv : validInput raw
    · rw [if_pos hv] at hd
      injection hd with hd
      constructor
      · intro k hk
        rw [← hd]
        unfold fieldVal
        rw [lookup_map_self _ _ _ hk]
        rfl
      · unfold predict_single symptomInput
        rw [if_pos hv, hd]
        rfl
    · rw [if_neg hv] at hd
      cases hd

/-- C9 witness: `Cramping = 2` is rejected with `InvalidSymptomValue`;
`Cramping = 1` parses and scores successfully. -/
theorem c9_witness :
    predict_single [("Cramping", 2)] = Except.error "InvalidSymptomValue" ∧
    predict_single [("Cramping", 1)]
      = Except.ok (generate_prediction (featureVec exOneHigh)) := by
  constructor
  · exact (c9_out_of_range_rejected_at_construction [("Cramping", 2)]).1
      (by with_unfolding_all decide)
  · exact ((c9_out_of_range_rejected_at_construction [("Cramping", 1)]).2
      (featureVec exOneHigh) (by with_unfolding_all rfl)).2

end Endo
